import Mathlib

/-!
Verification development for the `uidecorators` repository.

The repository has two source files:
* `ui_decorators.py` — decorator machinery: `notifying_setter` wraps a setter
  method so each successful call fans out to a per-instance listener list,
  stored on the instance under the attribute name `"_<funcname>_listeners"`.
* `qt_framework.py` — the Qt binding adapter: wires controls to setters with a
  `changing_widgets` feedback-loop guard, and a `Queue`-based UI-thread
  dispatcher (`run_on_ui_thread` / `on_queue_updated`).

We embed both shallowly.  Python instances are modelled as association lists
from attribute names to listener lists; setter calls that may raise return
`Except`; for the Qt adapter, mutation of the framework object is explicit
state passing over a scenario state record, and listener invocations are
recorded in traces so that "invoked exactly once, in order, with payload p"
becomes an equation on the trace.
-/

/-- Python exceptions that the modelled code can raise. -/
inductive PyErr : Type where
  | setterError
  | valueError
deriving DecidableEq, Repr

/-- The payload a listener is invoked with: either the setter's original
argument (`l(*args)` branch, taken when the setter returned `None`) or the
setter's return value (`l(ret)` branch). -/
inductive Payload (V R : Type) : Type where
  | args (v : V)
  | ret (r : R)
deriving DecidableEq, Repr

/-- Source `listener_list_name`: the attribute name under which `notifying_setter`
stores the per-instance listener list: `"_{}_listeners".format(func.__name__)`. -/
def listener_list_name (funcName : String) : String :=
  "_" ++ funcName ++ "_listeners"

/-- A Python instance, reduced to the state `notifying_setter` touches: its
attribute dictionary restricted to listener-list attributes.  `L` is the type
of listener identifiers. -/
structure Obj (L : Type) : Type where
  attrs : List (String × List L)
deriving DecidableEq, Repr

/-- Replace the binding of `k` in an association list (or append it). Models
`setattr` for an attribute-backed map. -/
def setAssoc {α : Type} (m : List (String × α)) (k : String) (v : α) :
    List (String × α) :=
  match m with
  | [] => [(k, v)]
  | (k', v') :: rest =>
      if k' = k then (k, v) :: rest else (k', v') :: setAssoc rest k v

/-- Source `get_listeners` of `notifying_setter`: read the instance attribute named
`listener_list_name funcName`; a missing attribute behaves as the freshly
created empty list. -/
def get_listeners {L : Type} (o : Obj L) (funcName : String) : List L :=
  (o.attrs.lookup (listener_list_name funcName)).getD []

/-- Registering a listener: `A.set_val.listeners(a).append(l)` — get-or-create
the per-instance list and append. -/
def append_listener {L : Type} (o : Obj L) (funcName : String) (l : L) :
    Obj L :=
  ⟨setAssoc o.attrs (listener_list_name funcName)
    (get_listeners o funcName ++ [l])⟩

/-- The notification loop of `newfunc`:
`for l in newfunc.listeners(self): if ret is None: l(*args) else: l(ret)`.
Each iteration records the invocation `(l, payload)`. -/
def notify_loop {V R L : Type} (ls : List L) (v : V) (ret : Option R) :
    List (L × Payload V R) :=
  match ls with
  | [] => []
  | l :: rest =>
      (match ret with
       | none => (l, Payload.args v)
       | some r => (l, Payload.ret r)) :: notify_loop rest v ret

/-- The payload `newfunc` hands every listener on a given call. -/
def payload_of {V R : Type} (v : V) (ret : Option R) : Payload V R :=
  match ret with
  | none => Payload.args v
  | some r => Payload.ret r

/-- A setter body in the trace model: takes the argument and the instance,
returns the Python result (`None` modelled as `none`) or raises, together
with the trace of listener invocations it performed. -/
abbrev SetterFn (V R E L : Type) : Type :=
  V → Obj L → Except E (Option R) × List (L × Payload V R)

/-- Lift an underlying setter body (which invokes no listeners itself) into
the trace model. -/
def base_fn {V R E L : Type} (f : V → Except E (Option R)) : SetterFn V R E L :=
  fun v _ => (f v, [])

/-- Source `newfunc`, the wrapper produced by `notifying_setter`:
call the original setter capturing `ret`; if it raises, propagate; otherwise
run the notification loop over the instance's current listener list and
return `ret` unchanged. -/
def newfunc {V R E L : Type} (funcName : String) (f : SetterFn V R E L) :
    SetterFn V R E L :=
  fun v o =>
    match f v o with
    | (Except.error e, tr) => (Except.error e, tr)
    | (Except.ok ret, tr) =>
        (Except.ok ret, tr ++ notify_loop (get_listeners o funcName) v ret)

/-- Concrete setter used by witnesses: stores nothing, returns twice its
argument (a non-`None` return, like `Test.height`). -/
def cf : Int → Except PyErr (Option Int) :=
  fun z => Except.ok (some (z * 2))

/-- Concrete setter used by witnesses: always raises. -/
def cfRaise : Int → Except PyErr (Option Int) :=
  fun _ => Except.error PyErr.setterError

/-- Concrete instance with listeners `3` then `4` registered on setter
`"test"`. -/
def cObj : Obj Nat :=
  append_listener (append_listener ⟨[]⟩ "test" 3) "test" 4

/-- The underlying body of `Test.height`: converts and stores the value and
returns it (a non-`None` return). -/
def hf : Int → Except PyErr (Option Int) :=
  fun v => Except.ok (some v)

/-- The inner notifying wrapper of the stacked
`@slider(...) @textbox(...) def height` declaration: `@wraps` preserves
`__name__`, so its listener-list attribute is `_height_listeners`. -/
def stacked_inner : SetterFn Int Int PyErr Nat :=
  newfunc "height" (base_fn hf)

/-- The outer notifying wrapper of the stacked declaration: it wraps
`stacked_inner` and, because `@wraps` preserved the name `height`, derives
the same listener-list attribute `_height_listeners`. -/
def stacked_outer : SetterFn Int Int PyErr Nat :=
  newfunc "height" stacked_inner

/-- Instance with one listener (id `0`) registered for `height`. -/
def hObj : Obj Nat :=
  append_listener ⟨[]⟩ "height" 0

/-! ### UI-thread dispatcher (`qt_framework.Framework`)

`run_on_ui_thread(f)` appends `f` to `self.q` and emits `_queue_updated`;
`on_queue_updated` runs on the UI thread and pops-and-executes while the
queue is non-empty.  We model the interleaving of producer enqueues and
UI-thread drain iterations as a trace of events over the state
`(queue, executed)`: a `drainStep` is one iteration of the `while` loop
(re-checking emptiness), an `enq` is one `run_on_ui_thread` call from any
thread. -/

/-- One observable event of the dispatcher. -/
inductive QEvent (T : Type) : Type where
  | enq (t : T)
  | drainStep
deriving DecidableEq, Repr

/-- Dispatcher state transition: `enq t` is `self.q.put(t)`; `drainStep` is
one iteration of `while not self.q.empty(): f = self.q.get(); f()` (a no-op
when the emptiness check succeeds). -/
def qstep {T : Type} (s : List T × List T) (e : QEvent T) : List T × List T :=
  match s, e with
  | (q, ex), QEvent.enq t => (q ++ [t], ex)
  | (q, ex), QEvent.drainStep =>
      match q with
      | [] => ([], ex)
      | f :: rest => (rest, ex ++ [f])

/-- Run the dispatcher from the initial empty state over an event trace,
returning `(remaining queue, executed tasks in execution order)`. -/
def qrun {T : Type} (evs : List (QEvent T)) : List T × List T :=
  evs.foldl qstep ([], [])

/-- The tasks enqueued by a trace, in enqueue order. -/
def enqueued {T : Type} (evs : List (QEvent T)) : List T :=
  evs.filterMap (fun e =>
    match e with
    | QEvent.enq t => some t
    | QEvent.drainStep => none)

/-- Source `Framework.on_queue_updated`, run to completion with no concurrent
enqueues: drain the queue head-first until the emptiness re-check succeeds,
executing each task. -/
def on_queue_updated {T : Type} (q ex : List T) : List T × List T :=
  match q with
  | [] => ([], ex)
  | f :: rest => on_queue_updated rest (ex ++ [f])

/-! ### Qt binding adapter (`qt_framework.get_widgets_for_method`), slider

Scenario state for an instance like `Test` bound to one or more sliders:
the framework's `changing_widgets` list, the widgets (identified by `Nat`
ids) with their configured range and raw displayed position, the instance's
`value` field, its listener-list attributes, and two traces: arguments of
underlying-setter invocations and arguments of `widget.setValue` calls.
Python's in-place mutation is explicit state passing; a callable that can
raise returns `SState × Except PyErr α` so that mutations made before the
raise survive it, as in Python. -/

/-- A bound slider widget: configured range and current raw position.
`QSlider` starts at position `0`. -/
structure SWidget : Type where
  wmin : Int
  wmax : Int
  pos : Int
deriving DecidableEq, Repr

/-- A defunctionalised listener closure appended by `add_widget` for a
slider: the `updating_widget`-wrapped `update_widget` for widget `w` with the
annotation's `scale`. -/
inductive SListener : Type where
  | sliderUpdate (w : Nat) (scale : Int)
deriving DecidableEq, Repr

/-- Combined framework + instance state for slider scenarios. -/
structure SState : Type where
  changing : List Nat
  widgets : List (Nat × SWidget)
  value : Int
  listenerLists : List (String × List SListener)
  setterLog : List Int
  setLog : List (Nat × Int)
deriving DecidableEq, Repr

/-- Qt `widget.setValue(x)`: record the call and update the widget's raw
position.  (Qt-internal signal re-emission and range clamping belong to the
external toolkit and are outside the modelled source.) -/
def setValue (w : Nat) (x : Int) (s : SState) : SState :=
  { s with
    widgets := s.widgets.map
      (fun p => if p.1 = w then (p.1, { p.2 with pos := x }) else p),
    setLog := s.setLog ++ [(w, x)] }

/-- Widget lookup by id. -/
def getWidget (s : SState) (w : Nat) : Option SWidget :=
  s.widgets.lookup w

/-- The slider's forward mapping on reflect:
`widget.setValue(newv * method._slider["scale"])`. -/
def slider_forward (v scale : Int) : Int := v * scale

/-- The slider's inverse mapping on a raw control value:
`method(x / method._slider["scale"])` — Python 2 `/` on integers is floor
division. -/
def slider_inverse (x scale : Int) : Int := Int.fdiv x scale

/-- Source `update_widget` for a slider:
`lambda newv: widget.setValue(newv * scale)`. -/
def slider_update_widget (w : Nat) (scale : Int) (newv : Int) (s : SState) :
    SState :=
  setValue w (slider_forward newv scale) s

/-- Source `updating_widget(widget, func)`: run `func` only when the widget is not
currently being changed by the user. -/
def updating_widget (w : Nat) (func : Int → SState → SState) (x : Int)
    (s : SState) : SState :=
  if w ∈ s.changing then s else func x s

/-- Invoke one registered listener with payload `p`. -/
def run_slistener (l : SListener) (p : Int) (s : SState) : SState :=
  match l with
  | SListener.sliderUpdate w scale =>
      updating_widget w (slider_update_widget w scale) p s

/-- The notification loop over a listener list (slider listeners cannot
raise). -/
def run_slisteners (ls : List SListener) (p : Int) (s : SState) : SState :=
  match ls with
  | [] => s
  | l :: rest => run_slisteners rest p (run_slistener l p s)

/-- Read the instance's listener-list attribute, as `get_listeners` does. -/
def getSListeners (s : SState) (funcName : String) : List SListener :=
  (s.listenerLists.lookup (listener_list_name funcName)).getD []

/-- Registration `listeners(instance).append(l)` in the slider scenario state. -/
def appendSListener (s : SState) (funcName : String) (l : SListener) : SState :=
  { s with
    listenerLists := setAssoc s.listenerLists (listener_list_name funcName)
      (getSListeners s funcName ++ [l]) }

/-- Source `newfunc` in the stateful Qt model: call the underlying setter, then on
success invoke the listeners currently registered on the (post-call)
instance with the return value, or with the original argument when the
setter returned `None`; return the setter's result unchanged. -/
def snewfunc (funcName : String)
    (f : Int → SState → SState × Except PyErr (Option Int)) (v : Int)
    (s : SState) : SState × Except PyErr (Option Int) :=
  match f v s with
  | (s1, Except.error e) => (s1, Except.error e)
  | (s1, Except.ok ret) =>
      (run_slisteners (getSListeners s1 funcName)
        (match ret with
         | some r => r
         | none => v) s1,
       Except.ok ret)

/-- Source `widget_changing(widget, func)`: append the widget to
`changing_widgets`, run `func`, and remove the widget again in a `finally`
block, so removal happens whether `func` returns or raises; the result (or
exception) passes through unchanged. -/
def widget_changing {α : Type} (w : Nat)
    (func : Int → SState → SState × Except PyErr α) (x : Int) (s : SState) :
    SState × Except PyErr α :=
  let s1 := { s with changing := s.changing ++ [w] }
  let r := func x s1
  ({ r.1 with changing := r.1.changing.erase w }, r.2)

/-- The handler wired to the slider's `valueChanged` signal:
`widget_changing(widget, lambda x: method(x / scale))` where `method` is the
notifying setter. -/
def slider_changed (w : Nat) (funcName : String) (scale : Int)
    (f : Int → SState → SState × Except PyErr (Option Int)) :
    Int → SState → SState × Except PyErr (Option Int) :=
  widget_changing w (fun x => snewfunc funcName f (slider_inverse x scale))

/-- The underlying setter `Test.test`: store the value (logging the call)
and return `None`. -/
def test_setter (v : Int) (s : SState) : SState × Except PyErr (Option Int) :=
  ({ s with value := v, setterLog := s.setterLog ++ [v] }, Except.ok none)

/-- An underlying setter that always raises, and mutates nothing. -/
def raising_setter (_v : Int) (s : SState) :
    SState × Except PyErr (Option Int) :=
  (s, Except.error PyErr.setterError)

/-- Source `Test.get_test`: the getter paired with the slider annotation. -/
def get_test (s : SState) : Int := s.value

/-- The slider branch of `get_widgets_for_method` + `add_widget`: create the
widget with the annotation's range, register the `updating_widget`-wrapped
`update_widget` on the instance's listener list, then — a getter being
present — immediately invoke that reflect-listener with the getter's current
value to initialise the display. -/
def bind_slider (w : Nat) (wmin wmax scale : Int) (funcName : String)
    (getfunc : SState → Int) (s : SState) : SState :=
  let s1 := { s with widgets := s.widgets ++ [(w, ⟨wmin, wmax, 0⟩)] }
  let s2 := appendSListener s1 funcName (SListener.sliderUpdate w scale)
  updating_widget w (slider_update_widget w scale) (getfunc s2) s2

/-- Fresh scenario state: nothing bound, instance value `0`. -/
def s0 : SState := ⟨[], [], 0, [], [], []⟩

/-- State right after binding slider widget `1` with `min=0, max=100,
scale=1` to the `test` setter with getter `get_test`. -/
def sBound : SState := bind_slider 1 0 100 1 "test" get_test s0

/-- State and result after a simulated user drag of the bound slider to raw
position `42`. -/
def sAfterDrag : SState × Except PyErr (Option Int) :=
  slider_changed 1 "test" 1 test_setter 42 sBound

/-- State and result after a subsequent direct call of the notifying setter
with `7`. -/
def sAfterDirect : SState × Except PyErr (Option Int) :=
  snewfunc "test" test_setter 7 sAfterDrag.1

/-! ### Qt binding adapter, combobox -/

/-- The listener appended by `add_widget` for a combobox: the
`updating_widget`-wrapped
`lambda newv: widget.setCurrentIndex(options.index(newv))`. -/
inductive CListener : Type where
  | comboUpdate (w : Nat) (options : List String)
deriving DecidableEq, Repr

/-- Combined framework + instance state for combobox scenarios. -/
structure CState : Type where
  changing : List Nat
  comboPos : List (Nat × Int)
  optionval : String
  listenerLists : List (String × List CListener)
  setLog : List (Nat × Int)
deriving DecidableEq, Repr

/-- Python's `list.index(v)`: index of the first occurrence, `ValueError`
when the value is absent. -/
def py_index (l : List String) (v : String) : Except PyErr Nat :=
  match l with
  | [] => Except.error PyErr.valueError
  | a :: rest =>
      if a = v then Except.ok 0
      else
        match py_index rest v with
        | Except.ok i => Except.ok (i + 1)
        | Except.error e => Except.error e

/-- Qt `widget.setCurrentIndex(i)`: record the call and update the combobox
position. -/
def setCurrentIndex (w : Nat) (i : Int) (s : CState) : CState :=
  { s with
    comboPos := s.comboPos.map (fun p => if p.1 = w then (p.1, i) else p),
    setLog := s.setLog ++ [(w, i)] }

/-- Source `update_widget` for a combobox:
`lambda newv: widget.setCurrentIndex(options.index(newv))` — raises when
`newv` is not among the declared options. -/
def combo_update_widget (w : Nat) (options : List String) (newv : String)
    (s : CState) : CState × Except PyErr Unit :=
  match py_index options newv with
  | Except.error e => (s, Except.error e)
  | Except.ok i => (setCurrentIndex w (Int.ofNat i) s, Except.ok ())

/-- Source `updating_widget` in the combobox scenario (the wrapped function can
raise). -/
def updating_cwidget (w : Nat)
    (func : String → CState → CState × Except PyErr Unit) (x : String)
    (s : CState) : CState × Except PyErr Unit :=
  if w ∈ s.changing then (s, Except.ok ()) else func x s

/-- Invoke one registered combobox listener with payload `p`. -/
def run_clistener (l : CListener) (p : String) (s : CState) :
    CState × Except PyErr Unit :=
  match l with
  | CListener.comboUpdate w options =>
      updating_cwidget w (combo_update_widget w options) p s

/-- The notification loop over combobox listeners: a raising listener aborts
the loop and propagates (the source has no per-listener isolation). -/
def run_clisteners (ls : List CListener) (p : String) (s : CState) :
    CState × Except PyErr Unit :=
  match ls with
  | [] => (s, Except.ok ())
  | l :: rest =>
      match run_clistener l p s with
      | (s1, Except.error e) => (s1, Except.error e)
      | (s1, Except.ok _) => run_clisteners rest p s1

/-- Read the instance's listener-list attribute in the combobox state. -/
def getCListeners (s : CState) (funcName : String) : List CListener :=
  (s.listenerLists.lookup (listener_list_name funcName)).getD []

/-- Source `newfunc` in the combobox scenario state. -/
def cnewfunc (funcName : String)
    (f : String → CState → CState × Except PyErr (Option String)) (v : String)
    (s : CState) : CState × Except PyErr (Option String) :=
  match f v s with
  | (s1, Except.error e) => (s1, Except.error e)
  | (s1, Except.ok ret) =>
      match run_clisteners (getCListeners s1 funcName)
          (match ret with
           | some r => r
           | none => v) s1 with
      | (s2, Except.error e) => (s2, Except.error e)
      | (s2, Except.ok _) => (s2, Except.ok ret)

/-- The underlying setter `Test.combo`: store the option string, return
`None`. -/
def combo_setter (v : String) (s : CState) :
    CState × Except PyErr (Option String) :=
  ({ s with optionval := v }, Except.ok none)

/-- Concrete combobox scenario: widget `2` bound to `combo` with the demo's
options. -/
def cs0 : CState :=
  ⟨[], [(2, 2)], "Maybe",
    [(listener_list_name "combo",
      [CListener.comboUpdate 2 ["Yes", "No", "Maybe"]])], []⟩

-- ------------------------------------------------------------------
-- Theorems
-- ------------------------------------------------------------------

/-- The notification loop invokes each listener in list order with the
uniform payload `payload_of v ret`. -/
theorem notify_loop_eq_map {V R L : Type} (ls : List L) (v : V) (ret : Option R) :
    notify_loop ls v ret = ls.map (fun l => (l, payload_of v ret)) := by
  induction ls with
  | nil => rfl
  | cons l rest ih =>
      cases ret <;> simp [notify_loop, payload_of, ih]

/-- C1: for every notifying setter (any wrapped body `f`, any function name),
instance `o` and value `v`, a successful call returns the underlying setter's
return value unchanged, and its invocation trace is exactly the instance's
registered listener list in registration order, each listener paired with the
payload — the return value when it is not `None`, the original argument
otherwise; in particular every listener is invoked exactly as many times as it
is registered. -/
theorem C1_notifying_setter_fanout (funcName : String)
    (f : Int → Except PyErr (Option Int)) (o : Obj Nat) (v : Int)
    (ret : Option Int) (h : f v = Except.ok ret) :
    newfunc funcName (base_fn f) v o =
      (Except.ok ret,
        (get_listeners o funcName).map (fun l => (l, payload_of v ret))) ∧
    ∀ l : Nat,
      ((newfunc funcName (base_fn f) v o).2.map Prod.fst).count l =
        (get_listeners o funcName).count l := by
  have hmain : newfunc funcName (base_fn f) v o =
      (Except.ok ret,
        (get_listeners o funcName).map (fun l => (l, payload_of v ret))) := by
    simp [newfunc, base_fn, h, notify_loop_eq_map]
  refine ⟨hmain, ?_⟩
  intro l
  rw [hmain]
  simp [List.map_map, Function.comp_def]

/-- Witness for C1 at a concrete input: setter returning `some 10` on
argument `5`, two registered listeners. -/
theorem C1_witness :
    newfunc "test" (base_fn cf) 5 cObj =
      (Except.ok (some 10),
        (get_listeners cObj "test").map (fun l => (l, payload_of 5 (some 10)))) ∧
    ∀ l : Nat,
      ((newfunc "test" (base_fn cf) 5 cObj).2.map Prod.fst).count l =
        (get_listeners cObj "test").count l :=
  C1_notifying_setter_fanout "test" cf cObj 5 (some 10) rfl

/-- C6: if the underlying wrapped setter raises, the wrapper invokes no
listener (empty invocation trace) and propagates the same exception to the
caller. -/
theorem C6_raise_skips_listeners (funcName : String)
    (f : Int → Except PyErr (Option Int)) (o : Obj Nat) (v : Int)
    (e : PyErr) (h : f v = Except.error e) :
    newfunc funcName (base_fn f) v o = (Except.error e, []) := by
  simp [newfunc, base_fn, h]

/-- Witness for C6 at a concrete input: the always-raising setter on the
instance with two registered listeners. -/
theorem C6_witness :
    newfunc "test" (base_fn cfRaise) 5 cObj =
      (Except.error PyErr.setterError, []) :=
  C6_raise_skips_listeners "test" cfRaise cObj 5 PyErr.setterError rfl

/-- Dispatcher invariant: along any interleaving of enqueues and drain
iterations, the tasks executed so far followed by the tasks still queued are
exactly the tasks enqueued so far, in enqueue order — no task is duplicated,
dropped, or reordered. -/
theorem qrun_exec_append_queue {T : Type} (evs : List (QEvent T)) (q ex : List T) :
    (evs.foldl qstep (q, ex)).2 ++ (evs.foldl qstep (q, ex)).1 =
      ex ++ q ++ enqueued evs := by
  induction evs generalizing q ex with
  | nil => simp [enqueued]
  | cons e rest ih =>
      cases e with
      | enq t =>
          simp only [List.foldl_cons, qstep, enqueued, List.filterMap_cons]
          rw [ih (q ++ [t]) ex]
          simp [enqueued]
      | drainStep =>
          cases q with
          | nil =>
              simp only [List.foldl_cons, qstep, enqueued, List.filterMap_cons]
              rw [ih [] ex]
              simp [enqueued]
          | cons f qrest =>
              simp only [List.foldl_cons, qstep, enqueued, List.filterMap_cons]
              rw [ih qrest (ex ++ [f])]
              simp [enqueued]

/-- The drain loop of `on_queue_updated` executes every queued task in order
and terminates with an empty queue. -/
theorem on_queue_updated_drains {T : Type} (q ex : List T) :
    on_queue_updated q ex = ([], ex ++ q) := by
  induction q generalizing ex with
  | nil => simp [on_queue_updated]
  | cons f rest ih =>
      simp [on_queue_updated, ih]

/-- C2: for any interleaving of `run_on_ui_thread` enqueues (from any
threads) with drain iterations of the UI thread — including tasks enqueued
while a drain is in progress — the executed tasks so far, followed by the
still-queued tasks, are exactly the enqueued tasks in enqueue order (each
executed at most once, none dropped); and a final run of
`on_queue_updated`'s re-checking loop executes everything that remains, so
every enqueued task has then run exactly once, in enqueue order. -/
theorem C2_dispatcher_fifo {T : Type} (evs : List (QEvent T)) :
    (qrun evs).2 ++ (qrun evs).1 = enqueued evs ∧
    on_queue_updated (qrun evs).1 (qrun evs).2 = ([], enqueued evs) := by
  have h := qrun_exec_append_queue evs [] []
  simp only [qrun] at *
  refine ⟨by simpa using h, ?_⟩
  rw [on_queue_updated_drains]
  simpa using h

/-- The map `listener_list_name` is injective: distinct function names derive
distinct listener-list attribute names. -/
theorem listener_list_name_inj {n1 n2 : String}
    (h : listener_list_name n1 = listener_list_name n2) : n1 = n2 := by
  have hd := congrArg String.data h
  simp only [listener_list_name, String.data_append] at hd
  rw [List.append_assoc, List.append_assoc] at hd
  exact String.ext (List.append_cancel_right (List.append_cancel_left hd))

/-- Writing one key of the attribute map leaves lookups of other keys
unchanged. -/
theorem lookup_setAssoc_ne {α : Type} (m : List (String × α)) (k1 k2 : String)
    (v : α) (h : k1 ≠ k2) :
    List.lookup k2 (setAssoc m k1 v) = List.lookup k2 m := by
  have hb1 : (k2 == k1) = false := beq_eq_false_iff_ne.mpr (Ne.symm h)
  induction m with
  | nil =>
      simp [setAssoc, List.lookup, hb1]
  | cons p rest ih =>
      obtain ⟨k', v'⟩ := p
      by_cases hk : k' = k1
      · have hb2 : (k2 == k') = false := by rw [hk]; exact hb1
        simp [setAssoc, hk, List.lookup, hb1, hb2]
      · cases hbk : k2 == k' <;> simp [setAssoc, hk, List.lookup, hbk, ih]

/-- C3 counterexample: the stacked `height` declaration yields two distinct
notifying setters on the same instance whose listener lists are the same
object — the single listener registered under `_height_listeners` is invoked
by a call to either wrapper (once by the inner, twice by the outer), so
"distinct setters have distinct listener lists" fails as stated. -/
theorem C3_counterexample :
    stacked_inner ≠ stacked_outer ∧
    (stacked_inner 5 hObj).2.map Prod.fst = [0] ∧
    (stacked_outer 5 hObj).2.map Prod.fst = [0, 0] := by
  refine ⟨?_, by decide, by decide⟩
  intro h
  have h2 : (stacked_inner 5 hObj).2 = (stacked_outer 5 hObj).2 :=
    congrArg Prod.snd (congrFun (congrFun h 5) hObj)
  have hne : ¬ (stacked_inner 5 hObj).2 = (stacked_outer 5 hObj).2 := by decide
  exact hne h2

/-- C3 amended: listener lists are keyed by (instance, function name), not by
setter object: registering a listener for one function name never alters the
list read under a different name, and a call of a notifying setter on an
instance only invokes listeners registered in that instance's list for that
name — so distinct instances, and setters with distinct underlying function
names on one instance, have disjoint listener lists, while two notifying
wrappers sharing a function name (the stacked case) share one list. -/
theorem C3_per_name_listener_lists :
    (∀ (o : Obj Nat) (n1 n2 : String) (l : Nat), n1 ≠ n2 →
      get_listeners (append_listener o n1 l) n2 = get_listeners o n2) ∧
    (∀ (o : Obj Nat) (funcName : String) (f : Int → Except PyErr (Option Int))
      (v : Int) (l : Nat), l ∉ get_listeners o funcName →
      l ∉ (newfunc funcName (base_fn f) v o).2.map Prod.fst) := by
  constructor
  · intro o n1 n2 l hne
    have hkey : listener_list_name n1 ≠ listener_list_name n2 :=
      fun hk => hne (listener_list_name_inj hk)
    simp only [get_listeners, append_listener]
    rw [lookup_setAssoc_ne _ _ _ _ hkey]
  · intro o funcName f v l hl
    cases hf : f v with
    | error e =>
        simp [newfunc, base_fn, hf]
    | ok ret =>
        simp [newfunc, base_fn, hf, notify_loop_eq_map, List.map_map,
          Function.comp_def, hl]

/-- Witness for the amended C3 at concrete inputs: registering listener `7`
for `combo` does not change `test`'s listener list on the concrete instance,
and unregistered listener `9` is not invoked by a call of `test`. -/
theorem C3_witness :
    get_listeners (append_listener cObj "combo" 7) "test" =
      get_listeners cObj "test" ∧
    9 ∉ (newfunc "test" (base_fn cf) 5 cObj).2.map Prod.fst :=
  ⟨C3_per_name_listener_lists.1 cObj "combo" "test" 7 (by decide),
   C3_per_name_listener_lists.2 cObj "test" cf 5 9 (by decide)⟩

/-- C9: stacking two value-kind annotations on one function applies the
notifying wrapper twice with the same derived name, so both wrappers read the
same per-instance listener list: one successful call of the stacked setter
produces the notification fan-out twice, invoking every registered listener
once per wrapper — twice its registration count in total. -/
theorem C9_stacked_double_notification (funcName : String)
    (f : Int → Except PyErr (Option Int)) (o : Obj Nat) (v : Int)
    (ret : Option Int) (h : f v = Except.ok ret) :
    newfunc funcName (newfunc funcName (base_fn f)) v o =
      (Except.ok ret,
        (get_listeners o funcName).map (fun l => (l, payload_of v ret)) ++
        (get_listeners o funcName).map (fun l => (l, payload_of v ret))) ∧
    ∀ l : Nat,
      ((newfunc funcName (newfunc funcName (base_fn f)) v o).2.map
        Prod.fst).count l = 2 * (get_listeners o funcName).count l := by
  have hmain : newfunc funcName (newfunc funcName (base_fn f)) v o =
      (Except.ok ret,
        (get_listeners o funcName).map (fun l => (l, payload_of v ret)) ++
        (get_listeners o funcName).map (fun l => (l, payload_of v ret))) := by
    simp [newfunc, base_fn, h, notify_loop_eq_map]
  refine ⟨hmain, ?_⟩
  intro l
  rw [hmain]
  simp [List.map_map, Function.comp_def, List.count_append, two_mul]

/-- Removing a just-appended element restores the list when it was not
already present. -/
theorem erase_append_self (w : Nat) {l : List Nat} (h : w ∉ l) :
    (l ++ [w]).erase w = l := by
  rw [List.erase_append_right _ h, List.erase_cons_head, List.append_nil]

/-- Python 2 floor division by `1` is the identity. -/
theorem fdiv_one_eq (x : Int) : Int.fdiv x 1 = x := by
  match x with
  | Int.ofNat 0 => rfl
  | Int.ofNat (Nat.succ m) =>
      show Int.ofNat (Nat.succ m / 1) = Int.ofNat (Nat.succ m)
      rw [Nat.div_one]
  | Int.negSucc m =>
      show Int.negSucc (m / 1) = Int.negSucc m
      rw [Nat.div_one]

/-- Source `widget_changing` unfolded: run the wrapped function on the state with
the widget appended to `changing_widgets`, then erase the widget from the
result's `changing_widgets`, passing the result or exception through. -/
theorem widget_changing_eq {α : Type} (w : Nat)
    (func : Int → SState → SState × Except PyErr α) (x : Int) (s : SState) :
    widget_changing w func x s =
      ({ (func x { s with changing := s.changing ++ [w] }).1 with
          changing :=
            ((func x { s with changing := s.changing ++ [w] }).1).changing.erase w },
       (func x { s with changing := s.changing ++ [w] }).2) := rfl

/-- C4: a reflect-listener for a control currently in the Changing-Set is a
complete no-op (no display write, no recorded `setValue`); and a
control-originated edit of a bound slider (scale `1`) performs exactly one
underlying-setter call with the edited value and no reflect-update at all —
the resulting state differs from the initial one only in the stored value
and the setter-call log. -/
theorem C4_changing_set_guard :
    (∀ (w : Nat) (scale p : Int) (s : SState), w ∈ s.changing →
      run_slistener (SListener.sliderUpdate w scale) p s = s) ∧
    (∀ (w : Nat) (v : Int) (s : SState), w ∉ s.changing →
      getSListeners s "test" = [SListener.sliderUpdate w 1] →
      slider_changed w "test" 1 test_setter v s =
        ({ s with value := v, setterLog := s.setterLog ++ [v] },
         Except.ok none)) := by
  constructor
  · intro w scale p s h
    simp [run_slistener, updating_widget, h]
  · intro w v s hch hl
    simp only [slider_changed, widget_changing_eq, snewfunc, test_setter,
      slider_inverse, fdiv_one_eq]
    simp only [getSListeners] at hl
    simp only [getSListeners, hl]
    simp only [run_slisteners, run_slistener, updating_widget]
    simp only [List.mem_append, List.mem_singleton, or_true, if_true]
    rw [erase_append_self w hch]

/-- Witness for C4 at concrete inputs: a listener for widget `1` while `1`
is in the Changing-Set leaves the state untouched, and a simulated drag of
the bound slider to raw `42` logs exactly the setter call `42` and nothing
else. -/
theorem C4_witness :
    run_slistener (SListener.sliderUpdate 1 1) 5 ⟨[1], [], 0, [], [], []⟩ =
      ⟨[1], [], 0, [], [], []⟩ ∧
    slider_changed 1 "test" 1 test_setter 42 sBound =
      ({ sBound with value := 42, setterLog := sBound.setterLog ++ [42] },
       Except.ok none) :=
  ⟨C4_changing_set_guard.1 1 1 5 ⟨[1], [], 0, [], [], []⟩ (by decide),
   C4_changing_set_guard.2 1 42 sBound (by decide) (by decide)⟩

/-- C5: for any wrapped change function that does not itself touch
`changing_widgets` — as the setter/listener chain never does — the wired
handler restores `changing_widgets` exactly, so the control is not in the
Changing-Set after the handler returns; and the function's result or raised
exception passes through unchanged, so this holds on the normal and the
raising path alike. -/
theorem C5_changing_set_released {α : Type} (w : Nat)
    (func : Int → SState → SState × Except PyErr α) (x : Int) (s : SState)
    (hpres : ∀ y t, ((func y t).1).changing = t.changing)
    (h : w ∉ s.changing) :
    ((widget_changing w func x s).1).changing = s.changing ∧
    w ∉ ((widget_changing w func x s).1).changing ∧
    (widget_changing w func x s).2 =
      (func x { s with changing := s.changing ++ [w] }).2 := by
  have hc : ((widget_changing w func x s).1).changing = s.changing := by
    rw [widget_changing_eq]
    show (((func x { s with changing := s.changing ++ [w] }).1).changing).erase w
        = s.changing
    rw [hpres]
    show (s.changing ++ [w]).erase w = s.changing
    exact erase_append_self w h
  exact ⟨hc, by rw [hc]; exact h, rfl⟩

/-- Witness for C5 at a concrete input: the handler over the always-raising
setter, on the fresh state — the exception comes back, and widget `1` is not
left in the Changing-Set. -/
theorem C5_witness :
    ((widget_changing 1 raising_setter 42 s0).1).changing = s0.changing ∧
    1 ∉ ((widget_changing 1 raising_setter 42 s0).1).changing ∧
    (widget_changing 1 raising_setter 42 s0).2 =
      (raising_setter 42 { s0 with changing := s0.changing ++ [1] }).2 :=
  C5_changing_set_released 1 raising_setter 42 s0 (fun _ _ => rfl) (by decide)

/-- C7: binding a slider over a setter whose Metadata Record carries a
getter immediately reflects the getter's current value into the control:
right after `bind_slider`, before any interaction, the widget holds the
configured range and raw position `getter-value * scale`. -/
theorem C7_bind_reflects_getter (w : Nat) (wmin wmax scale : Int) (s : SState)
    (hch : w ∉ s.changing) (hw : s.widgets = []) :
    getWidget (bind_slider w wmin wmax scale "test" get_test s) w =
      some ⟨wmin, wmax, slider_forward s.value scale⟩ := by
  simp [bind_slider, appendSListener, updating_widget, hch, hw,
    slider_update_widget, setValue, getWidget, get_test, List.lookup]

/-- Witness for C7 at the claim's concrete scenario: instance value `0`,
slider bound with `min=0, max=100, scale=1` — immediately after binding the
control displays `0`. -/
theorem C7_witness :
    getWidget (bind_slider 1 0 100 1 "test" get_test s0) 1 =
      some ⟨0, 100, slider_forward s0.value 1⟩ :=
  C7_bind_reflects_getter 1 0 100 1 s0 (by decide) rfl

/-- C8: the slider's inverse mapping is (floor) division by `scale` and its
forward mapping is multiplication by `scale`, so with `scale = 1` both are
the identity and the raw→setter→raw round trip is the identity; concretely,
on the slider bound with `min=0, max=100, scale=1`, a simulated raw drag to
`42` calls the setter with exactly `42`, and a subsequent direct call of the
setter with `7` puts the control's raw displayed position at `7`. -/
theorem C8_slider_round_trip :
    (∀ x : Int, slider_inverse x 1 = x) ∧
    (∀ v : Int, slider_forward (slider_inverse v 1) 1 = v) ∧
    sAfterDrag.1.setterLog = [42] ∧
    sAfterDrag.1.value = 42 ∧
    (getWidget sAfterDirect.1 1).map SWidget.pos = some 7 := by
  refine ⟨fun x => fdiv_one_eq x, fun v => ?_, by decide, by decide, by decide⟩
  show slider_inverse v 1 * 1 = v
  rw [mul_one]
  exact fdiv_one_eq v

/-- A value absent from the option list makes `list.index` raise
`ValueError`. -/
theorem py_index_not_mem {l : List String} {v : String} (h : v ∉ l) :
    py_index l v = Except.error PyErr.valueError := by
  induction l with
  | nil => rfl
  | cons a rest ih =>
      have ha : ¬ a = v := fun he => h (he ▸ List.mem_cons_self a rest)
      have hr : v ∉ rest := fun hm => h (List.mem_cons_of_mem a hm)
      simp [py_index, ha, ih hr]

/-- C10: calling a combobox-bound setter directly with a value outside the
declared options stores the value on the instance but makes the
reflect-listener raise `ValueError` at the index lookup: the exception
propagates out of the call and the control is not updated (no recorded
`setCurrentIndex`, positions unchanged). -/
theorem C10_combo_reflect_raises (w : Nat) (os : List String) (v : String)
    (s : CState) (hmem : v ∉ os) (hch : w ∉ s.changing)
    (hl : getCListeners s "combo" = [CListener.comboUpdate w os]) :
    cnewfunc "combo" combo_setter v s =
      ({ s with optionval := v }, Except.error PyErr.valueError) ∧
    (cnewfunc "combo" combo_setter v s).1.setLog = s.setLog ∧
    (cnewfunc "combo" combo_setter v s).1.comboPos = s.comboPos := by
  have hmain : cnewfunc "combo" combo_setter v s =
      ({ s with optionval := v }, Except.error PyErr.valueError) := by
    simp only [cnewfunc, combo_setter]
    simp only [getCListeners] at hl
    simp only [getCListeners, hl]
    simp only [run_clisteners, run_clistener, updating_cwidget,
      combo_update_widget, py_index_not_mem hmem]
    simp [hch]
  exact ⟨hmain, by rw [hmain], by rw [hmain]⟩

/-- Witness for C10 at concrete inputs: the demo's options
`["Yes", "No", "Maybe"]` and the out-of-options value `"Perhaps"`. -/
theorem C10_witness :
    cnewfunc "combo" combo_setter "Perhaps" cs0 =
      ({ cs0 with optionval := "Perhaps" }, Except.error PyErr.valueError) ∧
    (cnewfunc "combo" combo_setter "Perhaps" cs0).1.setLog = cs0.setLog ∧
    (cnewfunc "combo" combo_setter "Perhaps" cs0).1.comboPos = cs0.comboPos :=
  C10_combo_reflect_raises 2 ["Yes", "No", "Maybe"] "Perhaps" cs0
    (by decide) (by decide) (by decide)

/-- Witness for C9 at a concrete input: the stacked `height` wrappers on the
instance with one registered listener notify it twice with the returned
value. -/
theorem C9_witness :
    newfunc "height" (newfunc "height" (base_fn hf)) 5 hObj =
      (Except.ok (some 5),
        (get_listeners hObj "height").map (fun l => (l, payload_of 5 (some 5))) ++
        (get_listeners hObj "height").map (fun l => (l, payload_of 5 (some 5)))) ∧
    ∀ l : Nat,
      ((newfunc "height" (newfunc "height" (base_fn hf)) 5 hObj).2.map
        Prod.fst).count l = 2 * (get_listeners hObj "height").count l :=
  C9_stacked_double_notification "height" hf hObj 5 (some 5) rfl
